import Mathlib

/-!
Verification of the proxmox-utilities orchestration core against its
natural-language specification.

The Python sources embedded here are:
  * src/proxmox_utilities/utils.py      (run_command, download_file,
    validate_vm_id, sanitize_vm_name)
  * src/proxmox_utilities/template.py   (TemplateCreator.create_template)
  * src/proxbox/vm.py                   (VMCreator.create_vm, get_vm_status,
    start_vm, stop_vm, delete_vm)
  * src/proxmox_utilities/exceptions.py (error hierarchy)

Notes on the embedding:
  * Machine effects (subprocess execution, HTTP downloads, the filesystem)
    are abstracted into an `Env` of stub capabilities, exactly the
    CommandRunner / Downloader collaborators the spec treats as black boxes.
    Each workflow threads a `RunState` recording the external commands
    issued so far and the number of downloader invocations, so that
    theorems can speak about which external effects a run performed.
  * `src/proxbox/utils.py` and `src/proxbox/exceptions.py` are not present
    in the source tree; `src/proxbox/vm.py` imports them.  The sibling
    package `proxmox_utilities` ships the same modules (its `utils.py` and
    `exceptions.py` are present), and the embedding uses those definitions
    for both packages.
  * Python's `str.strip()` removes Unicode whitespace; the embedding models
    the six ASCII whitespace characters, which is exact for every input the
    claims and the surrounding code deal in.
-/

/-- The single-quote character, written via its code point, used in the
Python error-message templates. -/
def pyQuote : String := String.mk [Char.ofNat 39]

/-- Error kinds of exceptions.py plus the Python builtin `ValueError`
(raised by `validate_vm_id` / `sanitize_vm_name`) and tenacity's
`RetryError` (raised when the retry decorator exhausts its attempts).
Wrapper constructors carry both their formatted message and the wrapped
cause (`raise ... from e`). -/
inductive ProxmoxError where
  | valueError (msg : String)
  | validationError (msg : String)
  | networkError (msg : String)
  | commandError (command : String) (returncode : Int) (stderr : String)
  | templateCreationError (msg : String) (cause : ProxmoxError)
  | vmCreationError (msg : String) (cause : ProxmoxError)
  | retryError (cause : ProxmoxError)
deriving DecidableEq, Repr

/-- Python `str(e)` for each modelled exception.  `ProxmoxCommandError`
formats itself as in exceptions.py; the plain exceptions stringify to their
message.  tenacity's `RetryError` stringifies with a memory address and is
never inspected by the code, so it gets a fixed marker here. -/
def pyStr : ProxmoxError → String
  | ProxmoxError.valueError m => m
  | ProxmoxError.validationError m => m
  | ProxmoxError.networkError m => m
  | ProxmoxError.commandError c r s =>
      "Command " ++ pyQuote ++ c ++ pyQuote ++ " failed with exit code " ++
        toString r ++ ": " ++ s
  | ProxmoxError.templateCreationError m _ => m
  | ProxmoxError.vmCreationError m _ => m
  | ProxmoxError.retryError _ => "RetryError"

/-- Is the (top-level, unwrapped) error a `ValidationError`? -/
def isTopValidationError : Except ProxmoxError Unit → Bool
  | Except.error (ProxmoxError.validationError _) => true
  | _ => false

/-- The six ASCII whitespace characters stripped by Python's `str.strip()`
(space, tab, newline, carriage return, vertical tab, form feed). -/
def isPySpace (c : Char) : Bool :=
  c.toNat == 32 || c.toNat == 9 || c.toNat == 10 || c.toNat == 13 ||
    c.toNat == 11 || c.toNat == 12

/-- The character class kept by `re.sub(r"[^a-zA-Z0-9\-_]", "", name)` in
`sanitize_vm_name`. -/
def isNameChar (c : Char) : Bool :=
  (97 ≤ c.toNat && c.toNat ≤ 122) || (65 ≤ c.toNat && c.toNat ≤ 90) ||
    (48 ≤ c.toNat && c.toNat ≤ 57) || c.toNat == 45 || c.toNat == 95

/-- utils.validate_vm_id.  The `isinstance(vm_id, int)` branch is
unrepresentable here because the argument is typed `Int`; the range check
is translated verbatim.  It raises Python's builtin `ValueError`. -/
def validate_vm_id (vm_id : Int) (min_id : Int) (max_id : Int) :
    Except ProxmoxError Unit :=
  if vm_id < min_id ∨ vm_id > max_id then
    Except.error (ProxmoxError.valueError
      ("VM ID must be between " ++ toString min_id ++ " and " ++ toString max_id ++
        ", got " ++ toString vm_id))
  else
    Except.ok ()

/-- utils.sanitize_vm_name.  Python's guard `if not name or not
name.strip()` holds exactly when every character of `name` is whitespace
(vacuously for the empty string).  The local variable `sanitized` of the
source is inlined as `name.data.filter isNameChar`. -/
def sanitize_vm_name (name : String) : Except ProxmoxError String :=
  if name.data.all isPySpace then
    Except.error (ProxmoxError.valueError "VM name cannot be empty")
  else if (name.data.filter isNameChar).isEmpty then
    Except.error (ProxmoxError.valueError
      ("VM name " ++ pyQuote ++ name ++ pyQuote ++
        " contains no valid characters (only alphanumeric, hyphens, and underscores allowed)"))
  else if 64 < (name.data.filter isNameChar).length then
    Except.error (ProxmoxError.valueError
      ("VM name too long (max 64 characters): " ++
        String.mk (name.data.filter isNameChar)))
  else
    Except.ok (String.mk (name.data.filter isNameChar))

/-- Whitespace characters survive the regex of `sanitize_vm_name` never. -/
theorem isNameChar_of_isPySpace {c : Char} (h : isPySpace c = true) :
    isNameChar c = false := by
  unfold isPySpace at h
  unfold isNameChar
  simp only [Bool.or_eq_true, beq_iff_eq] at h
  simp only [Bool.or_eq_false_iff, Bool.and_eq_false_iff, decide_eq_false_iff_not,
    not_le, beq_eq_false_iff_ne, ne_eq]
  omega

/-- Kept name characters are not whitespace. -/
theorem isPySpace_of_isNameChar {c : Char} (h : isNameChar c = true) :
    isPySpace c = false := by
  unfold isNameChar at h
  unfold isPySpace
  simp only [Bool.or_eq_true, Bool.and_eq_true, decide_eq_true_eq, beq_iff_eq] at h
  simp only [Bool.or_eq_false_iff, beq_eq_false_iff_ne, ne_eq]
  omega

/-- An all-whitespace string has no surviving characters. -/
theorem filter_isNameChar_of_all_space {l : List Char}
    (h : l.all isPySpace = true) : l.filter isNameChar = [] := by
  rw [List.filter_eq_nil_iff]
  intro a ha
  have := List.all_eq_true.mp h a ha
  simp [isNameChar_of_isPySpace this]

/-- C5: `sanitize_vm_name` keeps exactly the characters in
`[A-Za-z0-9_-]`, in order, and fails exactly when the input is empty or
whitespace-only, when nothing survives stripping, or when the stripped
result exceeds 64 characters (the first two conditions coincide with
"nothing survives": whitespace never survives).  In particular 100 `a`s
fail with the "too long" error and 64 `a`s succeed. -/
theorem sanitize_vm_name_spec :
    (∀ s : String, (sanitize_vm_name s).toOption =
      (if (s.data.filter isNameChar).isEmpty || decide (64 < (s.data.filter isNameChar).length)
       then none
       else some (String.mk (s.data.filter isNameChar)))) ∧
    sanitize_vm_name (String.mk (List.replicate 100 (Char.ofNat 97))) =
      Except.error (ProxmoxError.valueError
        ("VM name too long (max 64 characters): " ++
          String.mk (List.replicate 100 (Char.ofNat 97)))) ∧
    sanitize_vm_name (String.mk (List.replicate 64 (Char.ofNat 97))) =
      Except.ok (String.mk (List.replicate 64 (Char.ofNat 97))) := by
  refine ⟨?_, by rfl, by rfl⟩
  intro s
  unfold sanitize_vm_name
  by_cases hws : s.data.all isPySpace = true
  · have hnil : s.data.filter isNameChar = [] := filter_isNameChar_of_all_space hws
    simp [hws, hnil, Except.toOption]
  · simp only [hws, if_false, Bool.false_eq_true]
    by_cases hempty : (s.data.filter isNameChar).isEmpty = true
    · simp [hempty, Except.toOption]
    · by_cases hlen : 64 < (s.data.filter isNameChar).length
      · simp [hempty, hlen, Except.toOption]
      · simp [hempty, hlen, Except.toOption]

/-- C6: `sanitize_vm_name` is deterministic (it is a function: equal
inputs give equal results) and idempotent on its successes; `"bad;name"`
sanitizes to `"badname"` without failing, while `";;;"` fails because
nothing survives stripping. -/
theorem sanitize_vm_name_idempotent :
    (∀ x y : String, x = y → sanitize_vm_name x = sanitize_vm_name y) ∧
    (∀ x r : String, sanitize_vm_name x = Except.ok r →
      sanitize_vm_name r = Except.ok r) ∧
    sanitize_vm_name "bad;name" = Except.ok "badname" ∧
    sanitize_vm_name ";;;" = Except.error (ProxmoxError.valueError
      ("VM name " ++ pyQuote ++ ";;;" ++ pyQuote ++
        " contains no valid characters (only alphanumeric, hyphens, and underscores allowed)")) := by
  refine ⟨fun x y h => by rw [h], ?_, by rfl, by rfl⟩
  intro x r h
  unfold sanitize_vm_name at h
  by_cases hws : x.data.all isPySpace = true
  · simp [hws] at h
  · simp only [hws, if_false, Bool.false_eq_true] at h
    by_cases hempty : (x.data.filter isNameChar).isEmpty = true
    · simp [hempty] at h
    · by_cases hlen : 64 < (x.data.filter isNameChar).length
      · simp [hempty, hlen] at h
      · simp only [hempty, hlen, if_false, Bool.false_eq_true] at h
        have hr : r = String.mk (x.data.filter isNameChar) := by
          injection h with h2
          exact h2.symm
        have hmem : ∀ a ∈ x.data.filter isNameChar, isNameChar a = true :=
          fun a ha => (List.mem_filter.mp ha).2
        have hknil : x.data.filter isNameChar ≠ [] := by
          intro hk
          rw [hk] at hempty
          simp at hempty
        -- the sanitized result is not all-whitespace
        have hnotws : (String.mk (x.data.filter isNameChar)).data.all isPySpace = false := by
          cases hk : x.data.filter isNameChar with
          | nil => exact absurd hk hknil
          | cons a t =>
            have hna : isNameChar a = true := by
              apply hmem
              rw [hk]
              exact List.mem_cons_self a t
            have := isPySpace_of_isNameChar hna
            simp [hk, this]
        -- filtering the sanitized result changes nothing
        have hfix : (String.mk (x.data.filter isNameChar)).data.filter isNameChar =
            x.data.filter isNameChar := List.filter_eq_self.mpr hmem
        rw [hr]
        unfold sanitize_vm_name
        rw [hnotws]
        simp only [Bool.false_eq_true, if_false]
        rw [hfix]
        simp only [hempty, hlen, Bool.false_eq_true, if_false]

/-- C6 witness: idempotence applied at the concrete success
`sanitize_vm_name "bad;name" = ok "badname"`. -/
theorem sanitize_vm_name_idempotent_witness :
    sanitize_vm_name "badname" = Except.ok "badname" :=
  sanitize_vm_name_idempotent.2.1 "bad;name" "badname" (by rfl)

/-- C7: with the default bounds, `validate_vm_id` succeeds iff
`100 ≤ id ≤ 999999999`; on all other integers it fails with the
validation error naming the bounds; in particular `validate_vm_id 50`
fails. -/
theorem validate_vm_id_spec :
    (∀ id : Int, (validate_vm_id id 100 999999999).isOk =
      (decide (100 ≤ id) && decide (id ≤ 999999999))) ∧
    (∀ id : Int, (validate_vm_id id 100 999999999).isOk = true ∨
      validate_vm_id id 100 999999999 = Except.error (ProxmoxError.valueError
        ("VM ID must be between 100 and 999999999, got " ++ toString id))) ∧
    (validate_vm_id 50 100 999999999).isOk = false := by
  refine ⟨?_, ?_, by rfl⟩
  · intro id
    unfold validate_vm_id
    by_cases h : id < 100 ∨ id > 999999999
    · rw [if_pos h]
      rcases h with h | h <;>
        simp [Except.isOk, Except.toBool] <;> omega
    · rw [if_neg h]
      push_neg at h
      simp [Except.isOk, Except.toBool]
      omega
  · intro id
    unfold validate_vm_id
    by_cases h : id < 100 ∨ id > 999999999
    · right
      rw [if_pos h]
      rfl
    · left
      rw [if_neg h]
      rfl

/-! ### Status-output parsing (VMCreator.get_vm_status)

The source parses `result.stdout.strip().split("\n")` line by line:
lines containing a colon are split at the first colon, both sides are
stripped, and assigned into a dict (overwriting duplicates); other lines
are skipped. -/

/-- Python `str.strip()` of the trailing end: drop whitespace from the
right.  (Recursive form of reverse-dropWhile-reverse.) -/
def stripEnd : List Char → List Char
  | [] => []
  | c :: rest =>
    let r := stripEnd rest
    if r.isEmpty && isPySpace c then [] else c :: r

/-- Python `str.strip()`: drop whitespace from both ends. -/
def pyStrip (l : List Char) : List Char :=
  stripEnd (l.dropWhile isPySpace)

/-- Python `str.strip()` applied to one side of a `key: value` split. -/
def trimB (l : List Char) : List Char :=
  stripEnd (l.dropWhile isPySpace)

/-- Python `text.split("\n")` (note: `"".split("\n") == [""]`, and a
trailing newline yields a trailing empty line). -/
def preHead (pfx : List Char) : List (List Char) → List (List Char)
  | [] => [pfx]
  | l :: ls => (pfx ++ l) :: ls

def splitNl : List Char → List (List Char)
  | [] => [[]]
  | c :: rest => if c.toNat = 10 then [] :: splitNl rest else preHead [c] (splitNl rest)

/-- Python dict assignment `d[k] = v` on an insertion-ordered mapping:
update in place if the key is present, else append. -/
def dictInsert : List (String × String) → String → String → List (String × String)
  | [], k, v => [(k, v)]
  | (k0, v0) :: rest, k, v =>
    if k0 = k then (k0, v) :: rest else (k0, v0) :: dictInsert rest k v

/-- `":" in line` (the colon is code point 58; characters are compared by
code point throughout, which is exactly character equality). -/
def hasColon (l : List Char) : Bool :=
  l.any (fun c => c.toNat == 58)

/-- The body of the parsing loop of `get_vm_status` for one line:
`if ":" in line: key, value = line.split(":", 1); d[key.strip()] = value.strip()`. -/
def processLine (d : List (String × String)) (l : List Char) : List (String × String) :=
  if hasColon l then
    dictInsert d
      (String.mk (trimB (l.takeWhile (fun c => c.toNat != 58))))
      (String.mk (trimB ((l.dropWhile (fun c => c.toNat != 58)).tail)))
  else d

def processLines (d : List (String × String)) : List (List Char) → List (String × String)
  | [] => d
  | l :: ls => processLines (processLine d l) ls

/-- The parsing stage of VMCreator.get_vm_status, applied to the captured
stdout: `result.stdout.strip().split("\n")` followed by the key/value
loop. -/
def parse_vm_status (stdout : String) : List (String × String) :=
  processLines [] (splitNl (pyStrip stdout.data))

/-- Modelled from the spec claim's words (not the source): parse the raw
output line by line — no global strip — splitting each colon-bearing line
at its first colon, trimming both sides, ignoring colon-free lines, later
duplicates overwriting earlier entries. -/
def statusClaimParse (stdout : String) : List (String × String) :=
  processLines [] (splitNl stdout.data)

/-! #### Lemmas: the global `strip()` of `get_vm_status` is invisible to the
line-oriented parse, so the code's parse agrees with the claim's
line-by-line description on every input. -/

theorem stripEnd_cons (c : Char) (rest : List Char) :
    stripEnd (c :: rest) =
      if (stripEnd rest).isEmpty && isPySpace c then [] else c :: stripEnd rest := rfl

/-- A string whose right-strip is empty is all whitespace. -/
theorem all_space_of_stripEnd_eq_nil {l : List Char} (h : stripEnd l = []) :
    l.all isPySpace = true := by
  induction l with
  | nil => rfl
  | cons c rest ih =>
    rw [stripEnd_cons] at h
    by_cases hc : ((stripEnd rest).isEmpty && isPySpace c) = true
    · have h1 := (Bool.and_eq_true _ _).mp hc
      have h2 : stripEnd rest = [] := List.isEmpty_iff.mp h1.1
      simp [List.all_cons, h1.2, ih h2]
    · rw [if_neg hc] at h
      simp at h

/-- Right-stripping absorbs a trailing whitespace character. -/
theorem stripEnd_append_ws {c : Char} (hc : isPySpace c = true) (l : List Char) :
    stripEnd (l ++ [c]) = stripEnd l := by
  induction l with
  | nil => simp [stripEnd, hc]
  | cons a rest ih =>
    rw [List.cons_append, stripEnd_cons, stripEnd_cons, ih]

/-- Trimming absorbs a leading whitespace character. -/
theorem trimB_cons_ws {c : Char} (hc : isPySpace c = true) (l : List Char) :
    trimB (c :: l) = trimB l := by
  unfold trimB
  rw [List.dropWhile_cons_of_pos hc]

/-- Trimming absorbs a trailing whitespace character. -/
theorem trimB_append_ws {c : Char} (hc : isPySpace c = true) (l : List Char) :
    trimB (l ++ [c]) = trimB l := by
  unfold trimB
  rw [List.dropWhile_append]
  by_cases h : (l.dropWhile isPySpace).isEmpty = true
  · rw [if_pos h]
    rw [List.isEmpty_iff.mp h]
    rw [List.dropWhile_cons_of_pos hc]
    rfl
  · rw [if_neg h]
    exact stripEnd_append_ws hc _

/-- Whitespace is never a colon. -/
theorem ws_toNat_ne_colon {c : Char} (hc : isPySpace c = true) :
    (c.toNat == 58) = false := by
  unfold isPySpace at hc
  simp only [Bool.or_eq_true, beq_iff_eq] at hc
  simp only [beq_eq_false_iff_ne, ne_eq]
  omega

theorem ws_toNat_bne_colon {c : Char} (hc : isPySpace c = true) :
    (c.toNat != 58) = true := by
  have := ws_toNat_ne_colon hc
  simp [bne, this]

/-- `takeWhile`/`dropWhile` cons equations specialised to the first-colon
predicate (stated so the predicate is fixed and Lean's unifier cannot pick
a wrong one). -/
theorem takeWhile_colon_cons_pos {c : Char} (h : (c.toNat != 58) = true)
    (l : List Char) :
    (c :: l).takeWhile (fun x => x.toNat != 58) =
      c :: l.takeWhile (fun x => x.toNat != 58) :=
  List.takeWhile_cons_of_pos h

theorem dropWhile_colon_cons_pos {c : Char} (h : (c.toNat != 58) = true)
    (l : List Char) :
    (c :: l).dropWhile (fun x => x.toNat != 58) =
      l.dropWhile (fun x => x.toNat != 58) :=
  List.dropWhile_cons_of_pos h

theorem dropWhile_colon_cons_neg {c : Char} (h : (c.toNat == 58) = true)
    (l : List Char) :
    (c :: l).dropWhile (fun x => x.toNat != 58) = c :: l :=
  List.dropWhile_cons_of_neg (by simp [bne, h])

theorem preHead_ne_nil (pfx : List Char) (ls : List (List Char)) :
    preHead pfx ls ≠ [] := by
  cases ls <;> simp [preHead]

theorem splitNl_cons (c : Char) (rest : List Char) :
    splitNl (c :: rest) =
      if c.toNat = 10 then [] :: splitNl rest else preHead [c] (splitNl rest) := rfl

theorem splitNl_ne_nil (l : List Char) : splitNl l ≠ [] := by
  cases l with
  | nil => simp [splitNl]
  | cons c rest =>
    unfold splitNl
    by_cases h : c.toNat = 10
    · simp [h]
    · rw [if_neg h]
      exact preHead_ne_nil _ _

theorem preHead_nil_id {ls : List (List Char)} (h : ls ≠ []) :
    preHead [] ls = ls := by
  cases ls with
  | nil => exact absurd rfl h
  | cons l t => simp [preHead]

theorem preHead_preHead (p q : List Char) (ls : List (List Char)) :
    preHead p (preHead q ls) = preHead (p ++ q) ls := by
  cases ls <;> simp [preHead]

theorem processLine_nil (d : List (String × String)) :
    processLine d [] = d := rfl

/-- A leading whitespace character on a line does not change how the
parsing loop treats it: it cannot be the first colon, and key-trimming
removes it. -/
theorem processLine_cons_ws {c : Char} (hc : isPySpace c = true)
    (d : List (String × String)) (l : List Char) :
    processLine d (c :: l) = processLine d l := by
  have hcc := ws_toNat_ne_colon hc
  have hne := ws_toNat_bne_colon hc
  unfold processLine
  simp only [hasColon, List.any_cons, hcc, Bool.false_or]
  by_cases hcol : l.any (fun x => x.toNat == 58) = true
  · rw [if_pos hcol, if_pos hcol, takeWhile_colon_cons_pos hne,
      dropWhile_colon_cons_pos hne, trimB_cons_ws hc]
  · rw [if_neg (by simp [hcol]), if_neg (by simp [hcol])]

/-- If a line contains a colon, the first-colon split happens inside it. -/
theorem dropWhile_colon_ne_nil {l : List Char}
    (h : l.any (fun x => x.toNat == 58) = true) :
    l.dropWhile (fun x => x.toNat != 58) ≠ [] := by
  induction l with
  | nil => simp at h
  | cons a t ih =>
    by_cases ha : (a.toNat == 58) = true
    · rw [dropWhile_colon_cons_neg ha]
      simp
    · have ha2 : (a.toNat == 58) = false := by simpa using ha
      rw [List.any_cons, ha2, Bool.false_or] at h
      have hp : (a.toNat != 58) = true := by simp [bne, ha2]
      rw [dropWhile_colon_cons_pos hp]
      exact ih h

/-- A trailing whitespace character on a line does not change how the
parsing loop treats it: the first-colon split is unaffected and
value-trimming removes it. -/
theorem processLine_append_ws {c : Char} (hc : isPySpace c = true)
    (d : List (String × String)) (l : List Char) :
    processLine d (l ++ [c]) = processLine d l := by
  have hcc := ws_toNat_ne_colon hc
  unfold processLine
  simp only [hasColon, List.any_append, List.any_cons, List.any_nil, hcc,
    Bool.or_false]
  by_cases hcol : l.any (fun x => x.toNat == 58) = true
  · rw [if_pos hcol, if_pos hcol]
    have hdw : l.dropWhile (fun x => x.toNat != 58) ≠ [] :=
      dropWhile_colon_ne_nil hcol
    have hlen : (l.takeWhile (fun x => x.toNat != 58)).length ≠ l.length := by
      have h1 := List.takeWhile_append_dropWhile (p := fun x => x.toNat != 58) (l := l)
      intro heq
      have h2 : (l.takeWhile (fun x => x.toNat != 58)).length +
          (l.dropWhile (fun x => x.toNat != 58)).length = l.length := by
        rw [← List.length_append, h1]
      have h3 : (l.dropWhile (fun x => x.toNat != 58)).length = 0 := by omega
      exact hdw (List.length_eq_zero.mp h3)
    rw [List.takeWhile_append, if_neg hlen, List.dropWhile_append,
      if_neg (by simp [hdw])]
    obtain ⟨x, xs, hx⟩ : ∃ x xs, l.dropWhile (fun a => a.toNat != 58) = x :: xs := by
      cases hh : l.dropWhile (fun a => a.toNat != 58) with
      | nil => exact absurd hh hdw
      | cons x xs => exact ⟨x, xs, rfl⟩
    rw [hx, List.cons_append, List.tail_cons, List.tail_cons, trimB_append_ws hc]
  · rw [if_neg (by simp [hcol]), if_neg (by simp [hcol])]

/-- An all-whitespace suffix on a line is invisible to the parsing loop. -/
theorem processLine_append_all_ws {s : List Char} (hs : s.all isPySpace = true) :
    ∀ (d : List (String × String)) (l : List Char),
      processLine d (l ++ s) = processLine d l := by
  induction s with
  | nil => intro d l; rw [List.append_nil]
  | cons c t ih =>
    intro d l
    rw [List.all_cons, Bool.and_eq_true] at hs
    rw [List.append_cons, ih hs.2, processLine_append_ws hs.1]

/-- An all-whitespace prefix on a line is invisible to the parsing loop. -/
theorem processLine_pre_all_ws {pfx : List Char} (hp : pfx.all isPySpace = true) :
    ∀ (d : List (String × String)) (l : List Char),
      processLine d (pfx ++ l) = processLine d l := by
  induction pfx with
  | nil => intro d l; rw [List.nil_append]
  | cons c t ih =>
    intro d l
    rw [List.all_cons, Bool.and_eq_true] at hp
    rw [List.cons_append, processLine_cons_ws hp.1, ih hp.2]

/-- Prefixing the first line of a non-empty line list with whitespace does
not change the parse. -/
theorem processLines_preHead_ws {pfx : List Char} (hp : pfx.all isPySpace = true)
    (d : List (String × String)) {ls : List (List Char)} (h : ls ≠ []) :
    processLines d (preHead pfx ls) = processLines d ls := by
  cases ls with
  | nil => exact absurd rfl h
  | cons l t =>
    show processLines (processLine d (pfx ++ l)) t = processLines (processLine d l) t
    rw [processLine_pre_all_ws hp]

/-- The lines of an all-whitespace text parse to nothing, even with an extra
whitespace prefix glued onto the first line. -/
theorem processLines_splitNl_all_ws :
    ∀ (x : List Char), x.all isPySpace = true →
      ∀ (q : List Char) (d : List (String × String)),
        processLines d (preHead q (splitNl x)) = processLine d q := by
  intro x
  induction x with
  | nil =>
    intro _ q d
    simp [splitNl, preHead, processLines]
  | cons c y ih =>
    intro hx q d
    rw [List.all_cons, Bool.and_eq_true] at hx
    unfold splitNl
    by_cases hcn : c.toNat = 10
    · rw [if_pos hcn]
      simp only [preHead, List.append_nil]
      have h2 := ih hx.2 [] (processLine d q)
      rw [preHead_nil_id (splitNl_ne_nil y), processLine_nil] at h2
      exact h2
    · rw [if_neg hcn, preHead_preHead, ih hx.2 (q ++ [c]) d,
        processLine_append_ws hx.1]

/-- Right-stripping the raw text does not change the parse. -/
theorem processLines_stripEnd :
    ∀ (t pfx : List Char) (d : List (String × String)),
      processLines d (preHead pfx (splitNl (stripEnd t))) =
        processLines d (preHead pfx (splitNl t)) := by
  intro t
  induction t with
  | nil => intro pfx d; rfl
  | cons c y ih =>
    intro pfx d
    by_cases hcond : ((stripEnd y).isEmpty && isPySpace c) = true
    · have h1 := (Bool.and_eq_true _ _).mp hcond
      have hy : y.all isPySpace = true :=
        all_space_of_stripEnd_eq_nil (List.isEmpty_iff.mp h1.1)
      have hse : stripEnd (c :: y) = [] := by rw [stripEnd_cons, if_pos hcond]
      rw [hse]
      have hL : processLines d (preHead pfx (splitNl ([] : List Char))) =
          processLine d pfx := by
        simp [splitNl, preHead, processLines]
      rw [hL]
      unfold splitNl
      by_cases hcn : c.toNat = 10
      · rw [if_pos hcn]
        simp only [preHead, List.append_nil]
        have h2 := processLines_splitNl_all_ws y hy [] (processLine d pfx)
        rw [preHead_nil_id (splitNl_ne_nil y), processLine_nil] at h2
        exact h2.symm
      · rw [if_neg hcn, preHead_preHead,
          processLines_splitNl_all_ws y hy (pfx ++ [c]) d,
          processLine_append_ws h1.2]
    · have hse : stripEnd (c :: y) = c :: stripEnd y := by
        rw [stripEnd_cons, if_neg hcond]
      rw [hse]
      unfold splitNl
      by_cases hcn : c.toNat = 10
      · rw [if_pos hcn, if_pos hcn]
        simp only [preHead, List.append_nil]
        have h2 := ih [] (processLine d pfx)
        rw [preHead_nil_id (splitNl_ne_nil _), preHead_nil_id (splitNl_ne_nil _)] at h2
        exact h2
      · rw [if_neg hcn, if_neg hcn, preHead_preHead, preHead_preHead]
        exact ih (pfx ++ [c]) d

/-- Left-stripping the raw text does not change the parse. -/
theorem processLines_dropWhile_ws :
    ∀ (t : List Char) (d : List (String × String)),
      processLines d (splitNl (t.dropWhile isPySpace)) =
        processLines d (splitNl t) := by
  intro t
  induction t with
  | nil => intro d; rfl
  | cons c y ih =>
    intro d
    by_cases hc : isPySpace c = true
    · rw [List.dropWhile_cons_of_pos hc, ih, splitNl_cons]
      by_cases hcn : c.toNat = 10
      · rw [if_pos hcn]
        show processLines d (splitNl y) = processLines (processLine d []) (splitNl y)
        rw [processLine_nil]
      · rw [if_neg hcn,
          processLines_preHead_ws (by simp [hc]) d (splitNl_ne_nil y)]
    · rw [List.dropWhile_cons_of_neg hc]

/-- C8: `get_vm_status` parsing.  The source first strips the whole stdout
and then splits, while the claim describes a plain line-by-line parse; the
two agree on every input, and on the concrete example
`"status: running\nname: test-vm\n"` the result is
`{status: running, name: test-vm}`.  Duplicate keys overwrite and lines
without a colon (including blank ones) are ignored. -/
theorem get_vm_status_parsing :
    (∀ t : String, parse_vm_status t = statusClaimParse t) ∧
    parse_vm_status "status: running\nname: test-vm\n" =
      [("status", "running"), ("name", "test-vm")] ∧
    parse_vm_status "a: 1\nthis line has no colon\n\na: 2\n" = [("a", "2")] := by
  refine ⟨?_, by rfl, by rfl⟩
  intro t
  unfold parse_vm_status statusClaimParse pyStrip
  have hB := processLines_stripEnd (t.data.dropWhile isPySpace) [] []
  rw [preHead_nil_id (splitNl_ne_nil _), preHead_nil_id (splitNl_ne_nil _)] at hB
  rw [hB]
  exact processLines_dropWhile_ws t.data []

/-! ### The workflow embedding

External effects are provided by a stub environment: a CommandRunner
(indexed by how many commands ran before, so order-dependent stubs are
expressible), a Downloader (indexed by how many download attempts were
made before), the existence of the cached image file, and whether
deleting it succeeds.  A `RunState` records the issued commands and the
downloader invocation count. -/

/-- subprocess.CompletedProcess (text mode). -/
structure CompletedProcess where
  returncode : Int
  stdout : String
  stderr : String
deriving DecidableEq, Repr

/-- What one external command does when run: completes with an exit code
and captured output, or hits the subprocess timeout. -/
inductive RunOutcome where
  | completed (returncode : Int) (stdout : String) (stderr : String)
  | timedOut
deriving DecidableEq, Repr

/-- What one downloader attempt does: succeeds, raises a
`requests.RequestException` (turned into `NetworkError` by
`download_file`), or raises some other exception (not retried). -/
inductive DownloadOutcome where
  | success
  | networkFailure (msg : String)
  | otherFailure (e : ProxmoxError)
deriving DecidableEq, Repr

structure Env where
  runner : Nat → List String → RunOutcome
  imageExists : Bool
  download : Nat → DownloadOutcome
  unlinkOk : Bool

structure RunState where
  cmds : List (List String)
  downloads : Nat
deriving DecidableEq, Repr

/-- The initial state of a workflow run. -/
def initState : RunState := RunState.mk [] 0

/-- utils.run_command.  The command is recorded, the stub runner decides
the outcome; on timeout a `ProxmoxCommandError` with synthetic exit code
-1 is raised (regardless of `check`), and with `check` a non-zero exit
code raises a `ProxmoxCommandError` carrying the joined command string,
the exit code and the captured stderr (`result.stderr or ""` is the
identity on the modelled `String` stderr). -/
def run_command (env : Env) (s : RunState) (command : List String)
    (check : Bool) (timeout : Nat) :
    Except ProxmoxError CompletedProcess × RunState :=
  match env.runner s.cmds.length command with
  | RunOutcome.timedOut =>
      (Except.error (ProxmoxError.commandError (String.intercalate " " command) (-1)
        ("Command timed out after " ++ toString timeout ++ " seconds")),
       RunState.mk (s.cmds ++ [command]) s.downloads)
  | RunOutcome.completed rc out err =>
      if check ∧ ¬ rc = 0 then
        (Except.error (ProxmoxError.commandError (String.intercalate " " command) rc err),
         RunState.mk (s.cmds ++ [command]) s.downloads)
      else
        (Except.ok (CompletedProcess.mk rc out err),
         RunState.mk (s.cmds ++ [command]) s.downloads)

/-- The tenacity retry loop around one fallible call:
`retry=retry_if_exception_type(NetworkError)` retries only the network
failure kind; any other exception propagates immediately; when the stop
condition (`fuel` attempts used up) is reached the last `NetworkError` is
raised wrapped in tenacity's `RetryError`.  Returns the total number of
downloader invocations made so far (`made` counts earlier ones). -/
def retryCall (d : Nat → DownloadOutcome) : Nat → Nat → Except ProxmoxError Unit × Nat
  | made, 0 => (Except.error (ProxmoxError.retryError (ProxmoxError.networkError "")), made)
  | made, fuel + 1 =>
    match d made with
    | DownloadOutcome.success => (Except.ok (), made + 1)
    | DownloadOutcome.networkFailure msg =>
        if fuel = 0 then
          (Except.error (ProxmoxError.retryError (ProxmoxError.networkError msg)), made + 1)
        else
          retryCall d (made + 1) fuel
    | DownloadOutcome.otherFailure e => (Except.error e, made + 1)

/-- utils.download_file.  Its `@retry(... stop=stop_after_attempt(3) ...)`
decorator hard-codes 3 attempts; the configured `max_retries` of
`ProxmoxConfig` is not consulted anywhere in the source.  `url`,
`destination` and `timeout` are forwarded to the stub downloader's world
and do not influence the stubbed outcome. -/
def download_file (d : Nat → DownloadOutcome) (url : String) (destination : String)
    (timeout : Nat) (made : Nat) : Except ProxmoxError Unit × Nat :=
  retryCall d made 3

/-- Modelled from the spec (§4.3), not from the source: the same retry
loop but stopping after the *configured* `maxRetries` attempts.  This is
the downloader contract the claim C2 describes; compare with
`download_file` above. -/
def download_file_specModel (max_retries : Nat) (d : Nat → DownloadOutcome)
    (url : String) (destination : String) (timeout : Nat) (made : Nat) :
    Except ProxmoxError Unit × Nat :=
  retryCall d made max_retries

/-- config.ProxmoxConfig: the fields the workflows read.  Pydantic's
validation constraints and env-file loading are out of the claims'
scope; values are taken as given. -/
structure ProxmoxConfig where
  data_store : String
  vm_bridge : String
  ssh_key_path : Option String
  template_memory_mb : Int
  template_disk_increase_gb : Int
  ubuntu_image_base_url : String
  download_timeout_seconds : Nat
  max_retries : Nat

/-- The defaults of config.ProxmoxConfig. -/
def defaultConfig : ProxmoxConfig :=
  ProxmoxConfig.mk "local-lvm" "vmbr0" none 2048 30
    "https://cloud-images.ubuntu.com" 300 3

/-- template.UbuntuRelease. -/
inductive UbuntuRelease where
  | jammy
  | focal
  | noble
deriving DecidableEq, Repr

def UbuntuRelease.value : UbuntuRelease → String
  | UbuntuRelease.jammy => "jammy"
  | UbuntuRelease.focal => "focal"
  | UbuntuRelease.noble => "noble"

/-- Sequencing of fallible state-threading steps (Python's straight-line
statements inside the `try`). -/
def andThen {α β : Type} (x : Except ProxmoxError α × RunState)
    (f : α → RunState → Except ProxmoxError β × RunState) :
    Except ProxmoxError β × RunState :=
  match x with
  | (Except.ok a, s) => f a s
  | (Except.error e, s) => (Except.error e, s)

namespace TemplateCreator

/-- TemplateCreator._get_image_url. -/
def get_image_url (cfg : ProxmoxConfig) (release : UbuntuRelease) : String :=
  cfg.ubuntu_image_base_url ++ "/" ++ release.value ++ "/current/" ++
    release.value ++ "-server-cloudimg-amd64.img"

/-- TemplateCreator._get_image_path. -/
def get_image_path (release : UbuntuRelease) : String :=
  "/tmp/" ++ release.value ++ "-server-cloudimg-amd64.img"

/-- TemplateCreator._download_image: reuse the cached image when the local
path exists, otherwise call `download_file` with the configured timeout. -/
def download_image (cfg : ProxmoxConfig) (env : Env) (release : UbuntuRelease)
    (s : RunState) : Except ProxmoxError String × RunState :=
  if env.imageExists then
    (Except.ok (get_image_path release), s)
  else
    match download_file env.download (get_image_url cfg release)
        (get_image_path release) cfg.download_timeout_seconds s.downloads with
    | (Except.ok _, n) => (Except.ok (get_image_path release), RunState.mk s.cmds n)
    | (Except.error e, n) => (Except.error e, RunState.mk s.cmds n)

/-- The `qm create` argv of TemplateCreator._create_vm. -/
def createCmd (cfg : ProxmoxConfig) (template_id : Int) (template_name : String)
    (memory_mb : Int) : List String :=
  ["qm", "create", toString template_id, "--name", template_name,
    "--memory", toString memory_mb, "--net0", "virtio,bridge=" ++ cfg.vm_bridge]

/-- TemplateCreator._create_vm. -/
def create_vm_step (cfg : ProxmoxConfig) (env : Env) (template_id : Int)
    (template_name : String) (memory_mb : Int) (s : RunState) :
    Except ProxmoxError Unit × RunState :=
  andThen (run_command env s (createCmd cfg template_id template_name memory_mb) true 300)
    (fun _ s2 => (Except.ok (), s2))

/-- The `qm importdisk` argv of TemplateCreator._import_disk. -/
def importCmd (cfg : ProxmoxConfig) (template_id : Int) (image_path : String) :
    List String :=
  ["qm", "importdisk", toString template_id, image_path, cfg.data_store,
    "-format", "qcow2"]

/-- TemplateCreator._import_disk (longer timeout: 600). -/
def import_disk (cfg : ProxmoxConfig) (env : Env) (template_id : Int)
    (image_path : String) (s : RunState) : Except ProxmoxError Unit × RunState :=
  andThen (run_command env s (importCmd cfg template_id image_path) true 600)
    (fun _ s2 => (Except.ok (), s2))

/-- TemplateCreator._configure_vm: two `qm set` invocations (SCSI
controller + imported disk, then boot order / cloud-init drive / serial
console). -/
def configure_vm (cfg : ProxmoxConfig) (env : Env) (template_id : Int)
    (s : RunState) : Except ProxmoxError Unit × RunState :=
  andThen (run_command env s
      ["qm", "set", toString template_id, "--scsihw", "virtio-scsi-pci",
        "--scsi0", cfg.data_store ++ ":vm-" ++ toString template_id ++ "-disk-0"]
      true 300)
    (fun _ s2 =>
      andThen (run_command env s2
          ["qm", "set", toString template_id, "--ide2", cfg.data_store ++ ":cloudinit",
            "--boot", "c", "--bootdisk", "scsi0", "--serial0", "socket",
            "--vga", "serial0"]
          true 300)
        (fun _ s3 => (Except.ok (), s3)))

/-- TemplateCreator._resize_disk: skipped without error when the increase
is not positive. -/
def resize_disk (env : Env) (template_id : Int) (increase_gb : Int)
    (s : RunState) : Except ProxmoxError Unit × RunState :=
  if increase_gb ≤ 0 then
    (Except.ok (), s)
  else
    andThen (run_command env s
        ["qm", "resize", toString template_id, "scsi0",
          "+" ++ toString increase_gb ++ "G"]
        true 300)
      (fun _ s2 => (Except.ok (), s2))

/-- TemplateCreator._configure_cloud_init: set DHCP; inject the SSH key
when configured (only a warning otherwise); then a non-fatal
`qm cloudinit dump` with `check=False` (which can still raise on
timeout, as in run_command). -/
def configure_cloud_init (cfg : ProxmoxConfig) (env : Env) (template_id : Int)
    (s : RunState) : Except ProxmoxError Unit × RunState :=
  andThen (run_command env s
      ["qm", "set", toString template_id, "--ipconfig0", "ip=dhcp"] true 300)
    (fun _ s2 =>
      andThen
        (match cfg.ssh_key_path with
         | some key =>
             andThen (run_command env s2
                 ["qm", "set", toString template_id, "--sshkey", key] true 300)
               (fun _ s3 => (Except.ok (), s3))
         | none => (Except.ok (), s2))
        (fun _ s3 =>
          andThen (run_command env s3
              ["qm", "cloudinit", "dump", toString template_id, "user"] false 300)
            (fun _ s4 => (Except.ok (), s4))))

/-- TemplateCreator._convert_to_template. -/
def convert_to_template (env : Env) (template_id : Int) (s : RunState) :
    Except ProxmoxError Unit × RunState :=
  andThen (run_command env s ["qm", "template", toString template_id] true 300)
    (fun _ s2 => (Except.ok (), s2))

/-- TemplateCreator._cleanup_image: keep the file on request; otherwise
unlink it, a failure being only a warning.  Either way no exception
escapes and no command is issued. -/
def cleanup_image (env : Env) (image_path : String) (keep_image : Bool)
    (s : RunState) : Except ProxmoxError Unit × RunState :=
  (Except.ok (), s)

/-- The `try:` block of TemplateCreator.create_template: validate, apply
defaults, run the eight-step workflow in order. -/
def create_template_body (cfg : ProxmoxConfig) (env : Env) (release : UbuntuRelease)
    (template_id : Int) (template_name : Option String) (memory_mb : Option Int)
    (disk_increase_gb : Option Int) (keep_image : Bool) :
    Except ProxmoxError Unit × RunState :=
  andThen (validate_vm_id template_id 100 999999999, initState) (fun _ s =>
    andThen (download_image cfg env release s) (fun image_path s2 =>
      andThen (create_vm_step cfg env template_id
          (template_name.getD ("ubuntu-" ++ release.value ++ "-template"))
          (memory_mb.getD cfg.template_memory_mb) s2) (fun _ s3 =>
        andThen (import_disk cfg env template_id image_path s3) (fun _ s4 =>
          andThen (configure_vm cfg env template_id s4) (fun _ s5 =>
            andThen (resize_disk env template_id
                (disk_increase_gb.getD cfg.template_disk_increase_gb) s5) (fun _ s6 =>
              andThen (configure_cloud_init cfg env template_id s6) (fun _ s7 =>
                andThen (convert_to_template env template_id s7) (fun _ s8 =>
                  cleanup_image env image_path keep_image s8))))))))

/-- TemplateCreator.create_template: run the body; any exception of the
body — precondition failures included — is wrapped into
`TemplateCreationError` naming the template id (`except Exception`),
with the already-issued commands left as they are (no rollback). -/
def create_template (cfg : ProxmoxConfig) (env : Env) (release : UbuntuRelease)
    (template_id : Int) (template_name : Option String) (memory_mb : Option Int)
    (disk_increase_gb : Option Int) (keep_image : Bool) :
    Except ProxmoxError Unit × RunState :=
  match create_template_body cfg env release template_id template_name memory_mb
      disk_increase_gb keep_image with
  | (Except.ok _, s) => (Except.ok (), s)
  | (Except.error e, s) =>
      (Except.error (ProxmoxError.templateCreationError
        ("Failed to create template " ++ toString template_id ++ ": " ++ pyStr e) e), s)

end TemplateCreator

namespace VMCreator

/-- The `qm clone` argv of VMCreator._clone_vm. -/
def cloneCmd (template_id : Int) (vm_id : Int) (vm_name : String) : List String :=
  ["qm", "clone", toString template_id, toString vm_id, "--name", vm_name]

/-- VMCreator._clone_vm. -/
def clone_vm (env : Env) (template_id : Int) (vm_id : Int) (vm_name : String)
    (s : RunState) : Except ProxmoxError Unit × RunState :=
  andThen (run_command env s (cloneCmd template_id vm_id vm_name) true 300)
    (fun _ s2 => (Except.ok (), s2))

/-- VMCreator._configure_vm (cloud-init drive, boot order, serial console). -/
def configure_vm (cfg : ProxmoxConfig) (env : Env) (vm_id : Int) (s : RunState) :
    Except ProxmoxError Unit × RunState :=
  andThen (run_command env s
      ["qm", "set", toString vm_id, "--ide2", cfg.data_store ++ ":cloudinit",
        "--boot", "c", "--bootdisk", "scsi0", "--serial0", "socket",
        "--vga", "serial0"]
      true 300)
    (fun _ s2 => (Except.ok (), s2))

/-- VMCreator._set_cloud_init_network (`use_dhcp` defaults to and is always
called with `True`; with `False` it does nothing). -/
def set_cloud_init_network (env : Env) (vm_id : Int) (use_dhcp : Bool)
    (s : RunState) : Except ProxmoxError Unit × RunState :=
  if use_dhcp then
    andThen (run_command env s
        ["qm", "set", toString vm_id, "--ipconfig0", "ip=dhcp"] true 300)
      (fun _ s2 => (Except.ok (), s2))
  else
    (Except.ok (), s)

/-- VMCreator.start_vm: a single command, failures unwrapped. -/
def start_vm (env : Env) (vm_id : Int) (s : RunState) :
    Except ProxmoxError Unit × RunState :=
  andThen (run_command env s ["qm", "start", toString vm_id] true 300)
    (fun _ s2 => (Except.ok (), s2))

/-- VMCreator.stop_vm: `--skiplock` appended exactly when `force`. -/
def stop_vm (env : Env) (vm_id : Int) (force : Bool) (s : RunState) :
    Except ProxmoxError Unit × RunState :=
  andThen (run_command env s
      (["qm", "stop", toString vm_id] ++ (if force then ["--skiplock"] else []))
      true 300)
    (fun _ s2 => (Except.ok (), s2))

/-- VMCreator.delete_vm: `--purge` appended exactly when `purge`. -/
def delete_vm (env : Env) (vm_id : Int) (purge : Bool) (s : RunState) :
    Except ProxmoxError Unit × RunState :=
  andThen (run_command env s
      (["qm", "destroy", toString vm_id] ++ (if purge then ["--purge"] else []))
      true 300)
    (fun _ s2 => (Except.ok (), s2))

/-- VMCreator.get_vm_status: run `qm status` and parse the stdout (the
parsing stage is `parse_vm_status`). -/
def get_vm_status (env : Env) (vm_id : Int) (s : RunState) :
    Except ProxmoxError (List (String × String)) × RunState :=
  andThen (run_command env s ["qm", "status", toString vm_id] true 300)
    (fun res s2 => (Except.ok (parse_vm_status res.stdout), s2))

/-- VMCreator.create_vm: validate both ids, reject equal ids, sanitize the
name (re-wrapping `ValueError` as `ValidationError`), then clone,
configure, optionally set DHCP networking and optionally start.  Any
exception of the body — validation failures included — is wrapped into
`VMCreationError` naming both ids (`except Exception`). -/
def create_vm_body (cfg : ProxmoxConfig) (env : Env) (template_id : Int) (vm_id : Int)
    (vm_name : String) (start_vm_flag : Bool) (configure_network : Bool) :
    Except ProxmoxError Unit × RunState :=
  andThen (validate_vm_id template_id 100 999999999, initState) (fun _ s =>
    andThen (validate_vm_id vm_id 100 999999999, s) (fun _ s2 =>
      andThen
        ((if template_id = vm_id then
            Except.error (ProxmoxError.validationError
              ("Template ID and VM ID cannot be the same: " ++ toString template_id))
          else Except.ok ()), s2) (fun _ s3 =>
        andThen
          ((match sanitize_vm_name vm_name with
            | Except.ok n => Except.ok n
            | Except.error e => Except.error (ProxmoxError.validationError
                ("Invalid VM name: " ++ pyStr e))), s3) (fun safe_vm_name s4 =>
          andThen (clone_vm env template_id vm_id safe_vm_name s4) (fun _ s5 =>
            andThen (configure_vm cfg env vm_id s5) (fun _ s6 =>
              andThen
                (if configure_network then set_cloud_init_network env vm_id true s6
                 else (Except.ok (), s6)) (fun _ s7 =>
                if start_vm_flag then start_vm env vm_id s7
                else (Except.ok (), s7))))))))

def create_vm (cfg : ProxmoxConfig) (env : Env) (template_id : Int) (vm_id : Int)
    (vm_name : String) (start_vm_flag : Bool) (configure_network : Bool) :
    Except ProxmoxError Unit × RunState :=
  match create_vm_body cfg env template_id vm_id vm_name start_vm_flag
      configure_network with
  | (Except.ok _, s) => (Except.ok (), s)
  | (Except.error e, s) =>
      (Except.error (ProxmoxError.vmCreationError
        ("Failed to create VM " ++ toString vm_id ++ " from template " ++
          toString template_id ++ ": " ++ pyStr e) e), s)

end VMCreator

/-! ### Stub environments used by concrete scenarios and witnesses -/

/-- Every command succeeds, the image is cached, downloads succeed. -/
def envAllOk : Env :=
  Env.mk (fun _ _ => RunOutcome.completed 0 "" "") true
    (fun _ => DownloadOutcome.success) true

/-- A downloader that raises a network error on its first three attempts
and succeeds from the fourth on. -/
def dlFailThree : Nat → DownloadOutcome := fun n =>
  if n < 3 then
    DownloadOutcome.networkFailure "Failed to download img: connection reset"
  else DownloadOutcome.success

/-- A downloader that raises a network error on its first two attempts and
succeeds from the third on. -/
def dlFailTwice : Nat → DownloadOutcome := fun n =>
  if n < 2 then
    DownloadOutcome.networkFailure "Failed to download img: connection reset"
  else DownloadOutcome.success

/-- A downloader that raises a non-network exception. -/
def dlOtherError : Nat → DownloadOutcome := fun _ =>
  DownloadOutcome.otherFailure (ProxmoxError.valueError "disk full")

/-- Every command succeeds, the image is absent, downloads fail twice then
succeed. -/
def envOkNoImage : Env :=
  Env.mk (fun _ _ => RunOutcome.completed 0 "" "") false dlFailTwice true

/-- C10: a `create_template` call whose template id fails validation
surfaces a `TemplateCreationError` wrapping the underlying `ValueError`
of `validate_vm_id` (the validation runs inside the `try` block), with
no external command issued. -/
theorem create_template_wraps_validation_failure
    (cfg : ProxmoxConfig) (env : Env) (release : UbuntuRelease) (template_id : Int)
    (tn : Option String) (mm ic : Option Int) (k : Bool)
    (h : template_id < 100 ∨ template_id > 999999999) :
    TemplateCreator.create_template cfg env release template_id tn mm ic k =
      (Except.error (ProxmoxError.templateCreationError
        ("Failed to create template " ++ toString template_id ++ ": " ++
          ("VM ID must be between 100 and 999999999, got " ++ toString template_id))
        (ProxmoxError.valueError
          ("VM ID must be between 100 and 999999999, got " ++ toString template_id))),
       initState) := by
  have hval : validate_vm_id template_id 100 999999999 =
      Except.error (ProxmoxError.valueError
        ("VM ID must be between 100 and 999999999, got " ++ toString template_id)) := by
    unfold validate_vm_id
    rw [if_pos h]
    rfl
  unfold TemplateCreator.create_template TemplateCreator.create_template_body
  rw [hval]
  rfl

/-- C10 witness: the concrete input `template_id = 50`. -/
theorem create_template_wraps_validation_failure_witness :
    ((50 : Int) < 100 ∨ (50 : Int) > 999999999) ∧
    TemplateCreator.create_template defaultConfig envAllOk UbuntuRelease.jammy 50
        none none none false =
      (Except.error (ProxmoxError.templateCreationError
        ("Failed to create template " ++ toString (50 : Int) ++ ": " ++
          ("VM ID must be between 100 and 999999999, got " ++ toString (50 : Int)))
        (ProxmoxError.valueError
          ("VM ID must be between 100 and 999999999, got " ++ toString (50 : Int)))),
       initState) :=
  ⟨by omega, create_template_wraps_validation_failure defaultConfig envAllOk
    UbuntuRelease.jammy 50 none none none false (by omega)⟩

/-- C2 (code versus claim): the tenacity decorator on `download_file`
hard-codes `stop_after_attempt(3)`; `config.max_retries` is never
consulted.  Concretely: with a downloader failing on its first three
attempts with a network error and succeeding from the fourth,
`download_file` gives up after 3 attempts even though `max_retries = 5`,
while the spec-modelled downloader (stopping after the configured
`maxRetries` attempts) succeeds on attempt 4.  The parts of the claim the
code does satisfy are also evaluated: only the network kind is retried
(another error propagates after 1 attempt), and with two network failures
then success, `create_template` completes having invoked the downloader
exactly 3 times. -/
theorem download_retry_hardcoded :
    download_file dlFailThree "u" "d" 300 0 =
      (Except.error (ProxmoxError.retryError
        (ProxmoxError.networkError "Failed to download img: connection reset")), 3) ∧
    download_file_specModel 5 dlFailThree "u" "d" 300 0 = (Except.ok (), 4) ∧
    download_file dlFailTwice "u" "d" 300 0 = (Except.ok (), 3) ∧
    download_file dlOtherError "u" "d" 300 0 =
      (Except.error (ProxmoxError.valueError "disk full"), 1) ∧
    (TemplateCreator.create_template defaultConfig envOkNoImage UbuntuRelease.jammy
        9001 none none none false).fst = Except.ok () ∧
    (TemplateCreator.create_template defaultConfig envOkNoImage UbuntuRelease.jammy
        9001 none none none false).snd.downloads = 3 :=
  ⟨rfl, rfl, rfl, rfl, rfl, rfl⟩

/-- C3 counterexample: called with equal (and individually valid) ids, the
error `create_vm` surfaces is not a bare `ValidationError` — the
`except Exception` wrapper turns it into a `VMCreationError` that wraps
the `ValidationError`. -/
theorem create_vm_equal_ids_counterexample :
    isTopValidationError
      (VMCreator.create_vm defaultConfig envAllOk 9001 9001 "test-vm" false true).fst
      = false ∧
    VMCreator.create_vm defaultConfig envAllOk 9001 9001 "test-vm" false true =
      (Except.error (ProxmoxError.vmCreationError
        "Failed to create VM 9001 from template 9001: Template ID and VM ID cannot be the same: 9001"
        (ProxmoxError.validationError
          "Template ID and VM ID cannot be the same: 9001")), initState) :=
  ⟨rfl, rfl⟩

/-- C3 (amended): for every pair of equal ids in the valid range, and any
name and flags, `create_vm` fails before issuing any command, with a
`VMCreationError` wrapping a `ValidationError` whose message states that
the template id and VM id cannot be the same. -/
theorem create_vm_equal_ids_wrapped
    (cfg : ProxmoxConfig) (env : Env) (id : Int) (name : String) (st cn : Bool)
    (h1 : 100 ≤ id) (h2 : id ≤ 999999999) :
    VMCreator.create_vm cfg env id id name st cn =
      (Except.error (ProxmoxError.vmCreationError
        ("Failed to create VM " ++ toString id ++ " from template " ++ toString id ++
          ": " ++ ("Template ID and VM ID cannot be the same: " ++ toString id))
        (ProxmoxError.validationError
          ("Template ID and VM ID cannot be the same: " ++ toString id))), initState) := by
  have hval : validate_vm_id id 100 999999999 = Except.ok () := by
    unfold validate_vm_id
    rw [if_neg (by omega)]
  unfold VMCreator.create_vm VMCreator.create_vm_body
  rw [hval]
  rw [if_pos (Eq.refl id)]
  rfl

/-- C3 witness for the amended theorem, at ids 9001 = 9001. -/
theorem create_vm_equal_ids_wrapped_witness :
    (100 ≤ (9001 : Int)) ∧ ((9001 : Int) ≤ 999999999) ∧
    VMCreator.create_vm defaultConfig envAllOk 9001 9001 "test-vm" false true =
      (Except.error (ProxmoxError.vmCreationError
        ("Failed to create VM " ++ toString (9001 : Int) ++ " from template " ++
          toString (9001 : Int) ++ ": " ++
          ("Template ID and VM ID cannot be the same: " ++ toString (9001 : Int)))
        (ProxmoxError.validationError
          ("Template ID and VM ID cannot be the same: " ++ toString (9001 : Int)))),
       initState) :=
  ⟨by omega, by omega, create_vm_equal_ids_wrapped defaultConfig envAllOk 9001
    "test-vm" false true (by omega) (by omega)⟩

/-! ### Helper lemmas about the step combinators -/

theorem andThen_ok {α β : Type} (a : α) (s : RunState)
    (f : α → RunState → Except ProxmoxError β × RunState) :
    andThen (Except.ok a, s) f = f a s := rfl

theorem andThen_error {α β : Type} (e : ProxmoxError) (s : RunState)
    (f : α → RunState → Except ProxmoxError β × RunState) :
    andThen (Except.error e, s) f = (Except.error e, s) := rfl

/-- `run_command` never touches the download counter. -/
theorem run_command_downloads (env : Env) (s : RunState) (c : List String)
    (ch : Bool) (t : Nat) :
    ((run_command env s c ch t).snd).downloads = s.downloads := by
  unfold run_command
  cases env.runner s.cmds.length c with
  | timedOut => rfl
  | completed rc out err =>
    dsimp only
    by_cases h : (ch = true) ∧ ¬ rc = 0
    · rw [if_pos h]
    · rw [if_neg h]

theorem andThen_downloads {α β : Type} {n : Nat}
    {x : Except ProxmoxError α × RunState}
    {f : α → RunState → Except ProxmoxError β × RunState}
    (hx : x.snd.downloads = n)
    (hf : ∀ a s, s.downloads = n → ((f a s).snd).downloads = n) :
    ((andThen x f).snd).downloads = n := by
  unfold andThen
  cases x with
  | mk u v =>
    cases u with
    | ok a => exact hf a v hx
    | error e => exact hx

theorem create_vm_step_downloads (cfg : ProxmoxConfig) (env : Env) (tid : Int)
    (tn : String) (mem : Int) (s : RunState) :
    ((TemplateCreator.create_vm_step cfg env tid tn mem s).snd).downloads = s.downloads := by
  unfold TemplateCreator.create_vm_step
  exact andThen_downloads (run_command_downloads _ _ _ _ _) (fun _ _ h => h)

theorem import_disk_downloads (cfg : ProxmoxConfig) (env : Env) (tid : Int)
    (p : String) (s : RunState) :
    ((TemplateCreator.import_disk cfg env tid p s).snd).downloads = s.downloads := by
  unfold TemplateCreator.import_disk
  exact andThen_downloads (run_command_downloads _ _ _ _ _) (fun _ _ h => h)

theorem configure_vm_downloads (cfg : ProxmoxConfig) (env : Env) (tid : Int)
    (s : RunState) :
    ((TemplateCreator.configure_vm cfg env tid s).snd).downloads = s.downloads := by
  unfold TemplateCreator.configure_vm
  exact andThen_downloads (run_command_downloads _ _ _ _ _)
    (fun _ s2 h => andThen_downloads ((run_command_downloads _ s2 _ _ _).trans h)
      (fun _ _ h2 => h2))

theorem resize_disk_downloads (env : Env) (tid : Int) (inc : Int) (s : RunState) :
    ((TemplateCreator.resize_disk env tid inc s).snd).downloads = s.downloads := by
  unfold TemplateCreator.resize_disk
  by_cases h : inc ≤ 0
  · rw [if_pos h]
  · rw [if_neg h]
    exact andThen_downloads (run_command_downloads _ _ _ _ _) (fun _ _ h2 => h2)

theorem configure_cloud_init_downloads (cfg : ProxmoxConfig) (env : Env)
    (tid : Int) (s : RunState) :
    ((TemplateCreator.configure_cloud_init cfg env tid s).snd).downloads = s.downloads := by
  unfold TemplateCreator.configure_cloud_init
  apply andThen_downloads (run_command_downloads _ _ _ _ _)
  intro _ s2 h
  apply andThen_downloads
  · cases cfg.ssh_key_path with
    | some key =>
      exact andThen_downloads ((run_command_downloads _ s2 _ _ _).trans h)
        (fun _ _ h2 => h2)
    | none => exact h
  · intro _ s3 h3
    exact andThen_downloads ((run_command_downloads _ s3 _ _ _).trans h3)
      (fun _ _ h4 => h4)

theorem convert_to_template_downloads (env : Env) (tid : Int) (s : RunState) :
    ((TemplateCreator.convert_to_template env tid s).snd).downloads = s.downloads := by
  unfold TemplateCreator.convert_to_template
  exact andThen_downloads (run_command_downloads _ _ _ _ _) (fun _ _ h => h)

/-- `_download_image` with the image already cached: the downloader is not
consulted and the state is unchanged. -/
theorem download_image_cached (cfg : ProxmoxConfig) (env : Env)
    (release : UbuntuRelease) (s : RunState) (himg : env.imageExists = true) :
    TemplateCreator.download_image cfg env release s =
      (Except.ok (TemplateCreator.get_image_path release), s) := by
  unfold TemplateCreator.download_image
  rw [if_pos himg]

/-- The except-wrapper of create_template does not change the state. -/
theorem create_template_snd (cfg : ProxmoxConfig) (env : Env)
    (release : UbuntuRelease) (tid : Int) (tn : Option String) (mm ic : Option Int)
    (k : Bool) :
    (TemplateCreator.create_template cfg env release tid tn mm ic k).snd =
      (TemplateCreator.create_template_body cfg env release tid tn mm ic k).snd := by
  unfold TemplateCreator.create_template
  cases hb : TemplateCreator.create_template_body cfg env release tid tn mm ic k with
  | mk u v => cases u <;> rfl

/-- C4: when the deterministic local image path for the release already
exists, `_download_image` returns it without calling the downloader, and a
whole `create_template` run performs zero downloader invocations. -/
theorem create_template_download_idempotent
    (cfg : ProxmoxConfig) (env : Env) (release : UbuntuRelease) (tid : Int)
    (tn : Option String) (mm ic : Option Int) (k : Bool)
    (himg : env.imageExists = true) :
    (∀ s : RunState, TemplateCreator.download_image cfg env release s =
      (Except.ok (TemplateCreator.get_image_path release), s)) ∧
    ((TemplateCreator.create_template cfg env release tid tn mm ic k).snd).downloads = 0 := by
  refine ⟨fun s => download_image_cached cfg env release s himg, ?_⟩
  rw [create_template_snd]
  unfold TemplateCreator.create_template_body
  apply andThen_downloads (n := 0) rfl
  intro _ s h
  apply andThen_downloads
  · rw [download_image_cached cfg env release s himg]
    exact h
  · intro path s2 h2
    apply andThen_downloads ((create_vm_step_downloads _ _ _ _ _ _).trans h2)
    intro _ s3 h3
    apply andThen_downloads ((import_disk_downloads _ _ _ _ _).trans h3)
    intro _ s4 h4
    apply andThen_downloads ((configure_vm_downloads _ _ _ _).trans h4)
    intro _ s5 h5
    apply andThen_downloads ((resize_disk_downloads _ _ _ _).trans h5)
    intro _ s6 h6
    apply andThen_downloads ((configure_cloud_init_downloads _ _ _ _).trans h6)
    intro _ s7 h7
    apply andThen_downloads ((convert_to_template_downloads _ _ _).trans h7)
    intro _ s8 h8
    exact h8

/-- C4 witness: the concrete cached environment. -/
theorem create_template_download_idempotent_witness :
    envAllOk.imageExists = true ∧
    ((∀ s : RunState, TemplateCreator.download_image defaultConfig envAllOk
        UbuntuRelease.jammy s =
      (Except.ok (TemplateCreator.get_image_path UbuntuRelease.jammy), s)) ∧
    ((TemplateCreator.create_template defaultConfig envAllOk UbuntuRelease.jammy
        9001 none none none false).snd).downloads = 0) :=
  ⟨rfl, create_template_download_idempotent defaultConfig envAllOk
    UbuntuRelease.jammy 9001 none none none false rfl⟩

/-- C9: when `create_vm`'s inputs fail validation — template id or VM id
out of `[100, 999999999]`, equal ids, or a name the sanitizer rejects —
the call fails without issuing a single external command: the final state
is the initial one (empty command trace, zero downloads). -/
theorem create_vm_validation_no_commands
    (cfg : ProxmoxConfig) (env : Env) (tid vid : Int) (name : String) (st cn : Bool)
    (h : tid < 100 ∨ tid > 999999999 ∨ vid < 100 ∨ vid > 999999999 ∨ tid = vid ∨
      (sanitize_vm_name name).isOk = false) :
    ((VMCreator.create_vm cfg env tid vid name st cn).fst).isOk = false ∧
    (VMCreator.create_vm cfg env tid vid name st cn).snd = initState := by
  have hbody : ∃ e, VMCreator.create_vm_body cfg env tid vid name st cn =
      (Except.error e, initState) := by
    unfold VMCreator.create_vm_body
    by_cases h1 : tid < 100 ∨ tid > 999999999
    · cases hv : validate_vm_id tid 100 999999999 with
      | error e => exact ⟨e, rfl⟩
      | ok u =>
        unfold validate_vm_id at hv
        rw [if_pos h1] at hv
        simp at hv
    · have hv1 : validate_vm_id tid 100 999999999 = Except.ok () := by
        unfold validate_vm_id
        rw [if_neg h1]
      rw [hv1, andThen_ok]
      by_cases h2 : vid < 100 ∨ vid > 999999999
      · cases hv : validate_vm_id vid 100 999999999 with
        | error e => exact ⟨e, rfl⟩
        | ok u =>
          unfold validate_vm_id at hv
          rw [if_pos h2] at hv
          simp at hv
      · have hv2 : validate_vm_id vid 100 999999999 = Except.ok () := by
          unfold validate_vm_id
          rw [if_neg h2]
        rw [hv2, andThen_ok]
        by_cases h3 : tid = vid
        · rw [if_pos h3, andThen_error]
          exact ⟨_, rfl⟩
        · rw [if_neg h3]
          have hs : (sanitize_vm_name name).isOk = false := by
            rcases h with h | h | h | h | h | h
            · exact absurd (Or.inl h) h1
            · exact absurd (Or.inr h) h1
            · exact absurd (Or.inl h) h2
            · exact absurd (Or.inr h) h2
            · exact absurd h h3
            · exact h
          cases hsan : sanitize_vm_name name with
          | error e =>
            exact ⟨ProxmoxError.validationError ("Invalid VM name: " ++ pyStr e), rfl⟩
          | ok v =>
            rw [hsan] at hs
            simp [Except.isOk, Except.toBool] at hs
  obtain ⟨e, he⟩ := hbody
  unfold VMCreator.create_vm
  rw [he]
  exact ⟨rfl, rfl⟩

/-- C9 witness: the concrete invalid input `template_id = 50`. -/
theorem create_vm_validation_no_commands_witness :
    ((50 : Int) < 100 ∨ (50 : Int) > 999999999 ∨ (190 : Int) < 100 ∨
      (190 : Int) > 999999999 ∨ (50 : Int) = 190 ∨
      (sanitize_vm_name "test-vm").isOk = false) ∧
    (((VMCreator.create_vm defaultConfig envAllOk 50 190 "test-vm" false true).fst).isOk
        = false ∧
      (VMCreator.create_vm defaultConfig envAllOk 50 190 "test-vm" false true).snd
        = initState) :=
  ⟨Or.inl (by omega), create_vm_validation_no_commands defaultConfig envAllOk
    50 190 "test-vm" false true (Or.inl (by omega))⟩

/-- A runner whose second command (the import-disk step) exits 1 and whose
other commands exit 0; the image is cached. -/
def envImportFails : Env :=
  Env.mk
    (fun n _ =>
      if n = 1 then RunOutcome.completed 1 "" "unable to import"
      else RunOutcome.completed 0 "" "")
    true (fun _ => DownloadOutcome.success) true

/-- C1: in every run whose download step succeeds, whose `qm create` (the
only command before import) exits 0, and whose `qm importdisk` exits
non-zero, `create_template` stops at the import step: exactly the create
and import commands were issued, no later step runs, and the surfaced
error is a `TemplateCreationError` naming the template id and wrapping
the underlying `ProxmoxCommandError`.  In general (second conjunct), any
erroring run of `create_template` surfaces a `TemplateCreationError`
wrapping the step's own error, with the state (issued commands) of the
aborted run left as it is — no rollback. -/
theorem create_template_aborts_on_import_failure
    (cfg : ProxmoxConfig) (env : Env) (release : UbuntuRelease) (template_id : Int)
    (tn : Option String) (mm ic : Option Int) (k : Bool) (dls : Nat) (rc : Int)
    (out err out0 err0 : String)
    (hid : 100 ≤ template_id ∧ template_id ≤ 999999999)
    (hdl : TemplateCreator.download_image cfg env release initState =
      (Except.ok (TemplateCreator.get_image_path release), RunState.mk [] dls))
    (hcr : env.runner 0 (TemplateCreator.createCmd cfg template_id
        (tn.getD ("ubuntu-" ++ release.value ++ "-template"))
        (mm.getD cfg.template_memory_mb)) = RunOutcome.completed 0 out0 err0)
    (himp : env.runner 1 (TemplateCreator.importCmd cfg template_id
        (TemplateCreator.get_image_path release)) = RunOutcome.completed rc out err)
    (hrc : ¬ rc = 0) :
    TemplateCreator.create_template cfg env release template_id tn mm ic k =
      (Except.error (ProxmoxError.templateCreationError
        ("Failed to create template " ++ toString template_id ++ ": " ++
          pyStr (ProxmoxError.commandError
            (String.intercalate " " (TemplateCreator.importCmd cfg template_id
              (TemplateCreator.get_image_path release))) rc err))
        (ProxmoxError.commandError
          (String.intercalate " " (TemplateCreator.importCmd cfg template_id
            (TemplateCreator.get_image_path release))) rc err)),
       RunState.mk
         [TemplateCreator.createCmd cfg template_id
            (tn.getD ("ubuntu-" ++ release.value ++ "-template"))
            (mm.getD cfg.template_memory_mb),
          TemplateCreator.importCmd cfg template_id
            (TemplateCreator.get_image_path release)] dls) ∧
    (∀ (cfg2 : ProxmoxConfig) (env2 : Env) (r2 : UbuntuRelease) (id2 : Int)
        (tn2 : Option String) (mm2 ic2 : Option Int) (k2 : Bool)
        (e : ProxmoxError) (s : RunState),
      TemplateCreator.create_template cfg2 env2 r2 id2 tn2 mm2 ic2 k2 =
        (Except.error e, s) →
      ∃ c, e = ProxmoxError.templateCreationError
        ("Failed to create template " ++ toString id2 ++ ": " ++ pyStr c) c) := by
  constructor
  · have hval : validate_vm_id template_id 100 999999999 = Except.ok () := by
      unfold validate_vm_id
      rw [if_neg (by omega)]
    unfold TemplateCreator.create_template TemplateCreator.create_template_body
    rw [hval, andThen_ok, hdl, andThen_ok]
    unfold TemplateCreator.create_vm_step
    unfold run_command
    dsimp only [List.length_nil]
    rw [hcr]
    dsimp only
    rw [if_neg (by simp), andThen_ok, andThen_ok]
    unfold TemplateCreator.import_disk
    unfold run_command
    dsimp only [List.nil_append, List.length_cons, List.length_nil, Nat.zero_add]
    rw [himp]
    dsimp only
    rw [if_pos ⟨rfl, hrc⟩, andThen_error, andThen_error]
    rfl
  · intro cfg2 env2 r2 id2 tn2 mm2 ic2 k2 e s hEq
    unfold TemplateCreator.create_template at hEq
    cases hb : TemplateCreator.create_template_body cfg2 env2 r2 id2 tn2 mm2 ic2 k2 with
    | mk u v =>
      rw [hb] at hEq
      cases u with
      | ok a => simp at hEq
      | error e0 =>
        dsimp only at hEq
        rw [Prod.mk.injEq] at hEq
        obtain ⟨h1, h2⟩ := hEq
        injection h1 with h1
        exact ⟨e0, h1.symm⟩

/-- C1 witness: template 9001, a runner answering exit 0 on call 0 and
exit 1 on call 1 (the import command), image cached. -/
theorem create_template_aborts_on_import_failure_witness :
    (100 ≤ (9001 : Int) ∧ (9001 : Int) ≤ 999999999) ∧
    (TemplateCreator.download_image defaultConfig envImportFails UbuntuRelease.jammy
        initState =
      (Except.ok (TemplateCreator.get_image_path UbuntuRelease.jammy),
        RunState.mk [] 0)) ∧
    (envImportFails.runner 0 (TemplateCreator.createCmd defaultConfig 9001
        ((none : Option String).getD ("ubuntu-" ++ UbuntuRelease.jammy.value ++ "-template"))
        ((none : Option Int).getD defaultConfig.template_memory_mb)) =
      RunOutcome.completed 0 "" "") ∧
    (envImportFails.runner 1 (TemplateCreator.importCmd defaultConfig 9001
        (TemplateCreator.get_image_path UbuntuRelease.jammy)) =
      RunOutcome.completed 1 "" "unable to import") ∧
    (¬ (1 : Int) = 0) ∧
    (TemplateCreator.create_template defaultConfig envImportFails UbuntuRelease.jammy
        9001 none none none false =
      (Except.error (ProxmoxError.templateCreationError
        ("Failed to create template " ++ toString (9001 : Int) ++ ": " ++
          pyStr (ProxmoxError.commandError
            (String.intercalate " " (TemplateCreator.importCmd defaultConfig 9001
              (TemplateCreator.get_image_path UbuntuRelease.jammy))) 1 "unable to import"))
        (ProxmoxError.commandError
          (String.intercalate " " (TemplateCreator.importCmd defaultConfig 9001
            (TemplateCreator.get_image_path UbuntuRelease.jammy))) 1 "unable to import")),
       RunState.mk
         [TemplateCreator.createCmd defaultConfig 9001
            ((none : Option String).getD ("ubuntu-" ++ UbuntuRelease.jammy.value ++ "-template"))
            ((none : Option Int).getD defaultConfig.template_memory_mb),
          TemplateCreator.importCmd defaultConfig 9001
            (TemplateCreator.get_image_path UbuntuRelease.jammy)] 0) ∧
    (∀ (cfg2 : ProxmoxConfig) (env2 : Env) (r2 : UbuntuRelease) (id2 : Int)
        (tn2 : Option String) (mm2 ic2 : Option Int) (k2 : Bool)
        (e : ProxmoxError) (s : RunState),
      TemplateCreator.create_template cfg2 env2 r2 id2 tn2 mm2 ic2 k2 =
        (Except.error e, s) →
      ∃ c, e = ProxmoxError.templateCreationError
        ("Failed to create template " ++ toString id2 ++ ": " ++ pyStr c) c)) :=
  ⟨⟨by omega, by omega⟩, rfl, rfl, rfl, by omega,
    create_template_aborts_on_import_failure defaultConfig envImportFails
      UbuntuRelease.jammy 9001 none none none false 0 1 "" "unable to import" "" ""
      ⟨by omega, by omega⟩ rfl rfl rfl (by omega)⟩
